import Mathlib

/-!
Verification of the client-side filtering / search / sort / pagination engine,
the decade aggregation and the URL state codec of the NJ Black Press static
archive site.  The JavaScript page controllers (docs/js/app.js,
docs/js/archive.js, docs/js/publication.js, the featured and timeline modules)
are shallowly embedded: publication records become a structure of optional
fields, JS truthiness and the lenient `||` defaulting are modelled explicitly,
and the stable Array.prototype.sort with a comparator is modelled by a stable
insertion sort on the comparator's key.
-/

/-- Lower-casing of a JS string, char by char (String.prototype.toLowerCase
restricted to the simple one-to-one case mapping). Defined on the underlying
character list so that it evaluates by kernel reduction. -/
def jsToLower (s : String) : String := String.mk (s.data.map Char.toLower)

/-- Does the text start with the pattern (on character lists)? -/
def strHeadMatch : List Char → List Char → Bool
  | [], _ => true
  | _ :: _, [] => false
  | a :: as, b :: bs => a == b && strHeadMatch as bs

/-- Does the pattern occur contiguously anywhere in the text? -/
def listSubstrB (pat : List Char) : List Char → Bool
  | [] => strHeadMatch pat []
  | b :: bs => strHeadMatch pat (b :: bs) || listSubstrB pat bs

/-- JS s.includes(q): q occurs as a substring of s. -/
def strIncludes (s q : String) : Bool := listSubstrB q.data s.data

theorem strHeadMatch_iff (pat txt : List Char) :
    strHeadMatch pat txt = true ↔ ∃ r, txt = pat ++ r := by
  induction pat generalizing txt with
  | nil => simp [strHeadMatch]
  | cons a as ih =>
    cases txt with
    | nil =>
      simp only [strHeadMatch, List.cons_append]
      constructor
      · intro h; exact absurd h (by simp)
      · rintro ⟨r, h⟩; exact absurd h (by simp)
    | cons b bs =>
      simp only [strHeadMatch, Bool.and_eq_true, beq_iff_eq, ih bs, List.cons_append]
      constructor
      · rintro ⟨h1, r, h2⟩
        exact ⟨r, by rw [h1, h2]⟩
      · rintro ⟨r, h⟩
        obtain ⟨h1, h2⟩ := List.cons_eq_cons.mp h
        exact ⟨h1.symm, r, h2⟩

theorem listSubstrB_iff (pat txt : List Char) :
    listSubstrB pat txt = true ↔ ∃ l r, txt = l ++ (pat ++ r) := by
  induction txt with
  | nil =>
    simp only [listSubstrB, strHeadMatch_iff]
    constructor
    · rintro ⟨r, h⟩; exact ⟨[], r, by simpa using h⟩
    · rintro ⟨l, r, h⟩
      refine ⟨r, ?_⟩
      have h1 := List.append_eq_nil.mp h.symm
      have h2 := List.append_eq_nil.mp h1.2
      simp [h2.1, h2.2]
  | cons b bs ih =>
    simp only [listSubstrB, Bool.or_eq_true, strHeadMatch_iff, ih]
    constructor
    · rintro (⟨r, h⟩ | ⟨l, r, h⟩)
      · exact ⟨[], r, by simpa using h⟩
      · exact ⟨b :: l, r, by simp [h]⟩
    · rintro ⟨l, r, h⟩
      cases l with
      | nil => exact Or.inl ⟨r, by simpa using h⟩
      | cons x xs =>
        right
        obtain ⟨h1, h2⟩ := List.cons_eq_cons.mp (by simpa using h)
        exact ⟨xs, r, h2⟩

theorem strIncludes_iff (s q : String) :
    strIncludes s q = true ↔ ∃ l r, s.data = l ++ (q.data ++ r) := listSubstrB_iff q.data s.data

/-- JS truthiness of an optional number field such as pub.yearCeased:
undefined, null and 0 are falsy, every other number is truthy. -/
def truthyNum (o : Option Int) : Bool :=
  match o with
  | some v => v != 0
  | none => false

/-- JS defaulting x || d on an optional number: the default is taken when the
field is absent or 0 (the falsy number). Models expressions such as
pub.yearFounded || 9999 in the source. -/
def jsOrNum (o : Option Int) (d : Int) : Int :=
  match o with
  | some v => if v = 0 then d else v
  | none => d

/-- Models pub.field?.toLowerCase().includes(query) used as a boolean (app.js
search): an absent field short-circuits to undefined, hence false. -/
def optChainIncludes (o : Option String) (q : String) : Bool :=
  match o with
  | some s => strIncludes (jsToLower s) q
  | none => false

/-- Models (pub.field && pub.field.toLowerCase().includes(query)) used as a
boolean (archive.js search): an absent or empty (falsy) field yields false. -/
def optGuardIncludes (o : Option String) (q : String) : Bool :=
  match o with
  | some s => if s = "" then false else strIncludes (jsToLower s) q
  | none => false

/-- A publication record as loaded from publications.json. Every descriptive
field is optional; publishers is modelled as an optional string here (the
well-typed shape the engines assume). See PubD below for the dynamic shape in
which publishers may also be an array. -/
structure Pub where
  id : Int
  name : Option String
  city : Option String
  yearFounded : Option Int
  yearCeased : Option Int
  isActive : Option Bool
  decade : Option String
  medium : Option String
  primaryFocus : Option String
  missionStatement : Option String
  historicalNotes : Option String
  publishers : Option String
  tags : Option (List String)
  deriving DecidableEq, Repr

/-- A record with every optional field absent, used as a base for the concrete
records appearing in scenarios and witnesses. -/
def emptyPub : Pub :=
  ⟨0, none, none, none, none, none, none, none, none, none, none, none, none⟩

/-- Sort key for the name branch: (a.name || ''). The locale-aware
localeCompare is modelled by the lexicographic order on strings. -/
def nameKey (p : Pub) : String := p.name.getD ""

/-- Sort key for year-asc: (a.yearFounded || 9999). -/
def yearAscKey (p : Pub) : Int := jsOrNum p.yearFounded 9999

/-- Sort key for year-desc: (a.yearFounded || 0). -/
def yearDescKey (p : Pub) : Int := jsOrNum p.yearFounded 0

/-- Sort key for the city branch: (a.city || ''). -/
def cityKey (p : Pub) : String := p.city.getD ""

/-- Embeds sortPublications, which is identical in app.js (lines 223 to 242)
and archive.js (lines 282 to 301): a switch over the sort key, each recognized
key sorting a copy of the list with a stable comparator sort
(Array.prototype.sort is stable; it is modelled by a stable insertion sort on
the comparator key), and any other key leaving the list unchanged. -/
def sortPublications (sortKey : String) (l : List Pub) : List Pub :=
  if sortKey = "name" then
    l.insertionSort (fun a b => nameKey a ≤ nameKey b)
  else if sortKey = "year-asc" then
    l.insertionSort (fun a b => yearAscKey a ≤ yearAscKey b)
  else if sortKey = "year-desc" then
    l.insertionSort (fun a b => yearDescKey b ≤ yearDescKey a)
  else if sortKey = "city" then
    l.insertionSort (fun a b => cityKey a ≤ cityKey b)
  else
    l

/-- City filter stage, identical in app.js (lines 190 to 193) and archive.js
(lines 254 to 257): strict equality against the selected city unless the
sentinel value all is selected. -/
def cityStage (pubs : List Pub) (city : String) : List Pub :=
  if city ≠ "all" then pubs.filter (fun p => p.city == some city) else pubs

/-- Decade filter stage, identical in app.js (lines 195 to 198) and archive.js
(lines 259 to 262). -/
def decadeStage (pubs : List Pub) (decade : String) : List Pub :=
  if decade ≠ "all" then pubs.filter (fun p => p.decade == some decade) else pubs

/-- Search predicate of archive.js applyFilters (lines 243 to 251): seven
field probes joined by short-circuit or. -/
def archiveSearchMatch (p : Pub) (query : String) : Bool :=
  optGuardIncludes p.name query ||
  optGuardIncludes p.city query ||
  optGuardIncludes p.missionStatement query ||
  optGuardIncludes p.historicalNotes query ||
  optGuardIncludes p.primaryFocus query ||
  optGuardIncludes p.publishers query ||
  (match p.tags with
   | some ts => ts.any (fun t => strIncludes (jsToLower t) query)
   | none => false)

/-- Search stage of archive.js applyFilters (lines 240 to 252): skipped when
the stored query is falsy (empty); otherwise the stored query is lower-cased
once more and matched. -/
def archiveSearchStage (pubs : List Pub) (search : String) : List Pub :=
  if search ≠ "" then pubs.filter (fun p => archiveSearchMatch p (jsToLower search)) else pubs

/-- Status stage of archive.js applyFilters (lines 264 to 271): active means
isActive is not the stored value false and yearCeased is falsy; archived is
the literal complement predicate written in the source. -/
def archiveStatusStage (pubs : List Pub) (status : String) : List Pub :=
  if status ≠ "all" then
    if status = "active" then
      pubs.filter (fun p => !(p.isActive == some false) && !(truthyNum p.yearCeased))
    else
      pubs.filter (fun p => (p.isActive == some false) || truthyNum p.yearCeased)
  else pubs

/-- Filter state of the archive page (archive.js state.filters). -/
structure ArchiveFilters where
  search : String
  city : String
  decade : String
  status : String
  deriving DecidableEq, Repr

namespace Archive

/-- Embeds applyFilters of archive.js (lines 237 to 280): search, city,
decade and status stages applied in order, then the current sort. The sort key
lives in state.sort in the source and is passed explicitly here. -/
def applyFilters (pubs : List Pub) (f : ArchiveFilters) (sortKey : String) : List Pub :=
  sortPublications sortKey
    (archiveStatusStage (decadeStage (cityStage (archiveSearchStage pubs f.search) f.city) f.decade) f.status)

end Archive

/-- Search predicate of app.js applyFilters (lines 181 to 187): five field
probes with optional chaining, and the stored query used as is (app.js does
not lower-case it again inside applyFilters; its search handler stores it
already lower-cased and trimmed). -/
def appSearchMatch (p : Pub) (query : String) : Bool :=
  optChainIncludes p.name query ||
  optChainIncludes p.city query ||
  optChainIncludes p.primaryFocus query ||
  optChainIncludes p.missionStatement query ||
  optChainIncludes p.publishers query

/-- Search stage of app.js applyFilters (lines 178 to 188). -/
def appSearchStage (pubs : List Pub) (search : String) : List Pub :=
  if search ≠ "" then pubs.filter (fun p => appSearchMatch p search) else pubs

/-- Status stage of app.js applyFilters (lines 200 to 204): the stored
isActive flag is compared with strict equality against the boolean meaning of
the selected status. -/
def appStatusStage (pubs : List Pub) (status : String) : List Pub :=
  if status ≠ "all" then pubs.filter (fun p => p.isActive == some (status == "active")) else pubs

/-- Format predicate of app.js applyFilters (lines 207 to 213):
pub.medium?.toLowerCase() || '' probed for the print or digital markers. -/
def appFormatMatch (p : Pub) (format : String) : Bool :=
  let medium := (p.medium.map jsToLower).getD ""
  if format = "print" then strIncludes medium "print"
  else if format = "digital" then strIncludes medium "digital" || strIncludes medium "online"
  else true

/-- Format stage of app.js applyFilters (lines 206 to 214). -/
def appFormatStage (pubs : List Pub) (format : String) : List Pub :=
  if format ≠ "all" then pubs.filter (fun p => appFormatMatch p format) else pubs

/-- Filter state of the home page (app.js state.filters), which has the extra
format filter. -/
structure AppFilters where
  search : String
  city : String
  decade : String
  status : String
  format : String
  deriving DecidableEq, Repr

namespace App

/-- Embeds applyFilters of app.js (lines 175 to 221): search, city, decade,
status and format stages in order, then the in-place sortPublications call on
the filtered list (state.sortBy passed explicitly). -/
def applyFilters (pubs : List Pub) (f : AppFilters) (sortKey : String) : List Pub :=
  sortPublications sortKey
    (appFormatStage (appStatusStage (decadeStage (cityStage (appSearchStage pubs f.search) f.city) f.decade) f.status) f.format)

end App

/-- Embeds the visible prefix of the archive results
(archive.js line 304: state.filtered.slice(0, state.page * state.perPage);
likewise app.js lines 247 to 249). -/
def visibleSlice (records : List Pub) (page perPage : Nat) : List Pub :=
  records.take (page * perPage)

/-- Embeds the load-more visibility test (archive.js line 327:
toShow.length < state.filtered.length; app.js line 264 compares
page * perPage < length, equivalently). -/
def hasMore (records : List Pub) (page perPage : Nat) : Bool :=
  decide ((visibleSlice records page perPage).length < records.length)

/-- A fixed decade window from the timeline module. The source field named
end is a Lean keyword and is embedded as endYear. -/
structure DecadeWindow where
  label : String
  start : Int
  endYear : Int
  deriving DecidableEq, Repr

/-- The fixed sequence of 15 decade windows of the timeline module
(unnamed timeline source, lines 9 to 25). -/
def decades : List DecadeWindow :=
  [⟨"1880s", 1880, 1889⟩, ⟨"1890s", 1890, 1899⟩, ⟨"1900s", 1900, 1909⟩,
   ⟨"1910s", 1910, 1919⟩, ⟨"1920s", 1920, 1929⟩, ⟨"1930s", 1930, 1939⟩,
   ⟨"1940s", 1940, 1949⟩, ⟨"1950s", 1950, 1959⟩, ⟨"1960s", 1960, 1969⟩,
   ⟨"1970s", 1970, 1979⟩, ⟨"1980s", 1980, 1989⟩, ⟨"1990s", 1990, 1999⟩,
   ⟨"2000s", 2000, 2009⟩, ⟨"2010s", 2010, 2019⟩, ⟨"2020s", 2020, 2029⟩]

/-- Active-overlap predicate of calculateDecadeData (timeline source, lines
51 to 55): (pub.yearFounded || 9999) <= decade.end and
(pub.yearCeased || 2026) >= decade.start. -/
def decadeActive (d : DecadeWindow) (p : Pub) : Bool :=
  decide (jsOrNum p.yearFounded 9999 ≤ d.endYear) && decide (d.start ≤ jsOrNum p.yearCeased 2026)

/-- Founded predicate of calculateDecadeData (timeline source, lines 57 to
59): pub.yearFounded >= decade.start and pub.yearFounded <= decade.end. In JS
a comparison against an absent field is false, so an absent yearFounded
matches no window. -/
def decadeFounded (d : DecadeWindow) (p : Pub) : Bool :=
  match p.yearFounded with
  | some y => decide (d.start ≤ y) && decide (y ≤ d.endYear)
  | none => false

/-- A computed decade bucket (timeline source, lines 61 to 66). -/
structure DecadeBucket where
  label : String
  start : Int
  endYear : Int
  activeCount : Nat
  foundedCount : Nat
  publications : List Pub
  deriving DecidableEq, Repr

/-- Embeds calculateDecadeData of the timeline module (lines 48 to 68 of both
timeline sources): for each fixed window, the records whose active span
overlaps it, the records founded inside it, and the first five active records
for the tooltip. -/
def calculateDecadeData (publications : List Pub) : List DecadeBucket :=
  decades.map (fun decade =>
    let activePublications := publications.filter (fun pub => decadeActive decade pub)
    let founded := publications.filter (fun pub => decadeFounded decade pub)
    { label := decade.label, start := decade.start, endYear := decade.endYear,
      activeCount := activePublications.length,
      foundedCount := founded.length,
      publications := activePublications.take 5 })

/-- The filter, sort and view state persisted in the archive page URL. -/
structure ArchiveState where
  search : String
  city : String
  decade : String
  status : String
  sort : String
  view : String
  deriving DecidableEq, Repr

/-- The initial archive state (archive.js lines 10 to 23): empty search, all
filters at the sentinel all, sort name, view grid. -/
def defaultArchiveState : ArchiveState := ⟨"", "all", "all", "all", "name", "grid"⟩

/-- URLSearchParams get: the value of the first parameter with the given key,
if any. -/
def getParam (params : List (String × String)) (key : String) : Option String :=
  (params.find? (fun q => q.1 == key)).map (fun q => q.2)

/-- Embeds loadStateFromURL (archive.js lines 63 to 72): starting from the
initial state, each recognized parameter present in the query string is copied
verbatim into the state, with no validation. -/
def loadStateFromURL (params : List (String × String)) : ArchiveState :=
  { search := (getParam params "search").getD defaultArchiveState.search,
    city := (getParam params "city").getD defaultArchiveState.city,
    decade := (getParam params "decade").getD defaultArchiveState.decade,
    status := (getParam params "status").getD defaultArchiveState.status,
    sort := (getParam params "sort").getD defaultArchiveState.sort,
    view := (getParam params "view").getD defaultArchiveState.view }

/-- Embeds updateURL (archive.js lines 74 to 86): a parameter is emitted only
when the field differs from its default (truthy search, non-all filters,
non-name sort, non-grid view), in the fixed source order. -/
def updateURL (st : ArchiveState) : List (String × String) :=
  (if st.search ≠ "" then [("search", st.search)] else []) ++
  (if st.city ≠ "all" then [("city", st.city)] else []) ++
  (if st.decade ≠ "all" then [("decade", st.decade)] else []) ++
  (if st.status ≠ "all" then [("status", st.status)] else []) ++
  (if st.sort ≠ "name" then [("sort", st.sort)] else []) ++
  (if st.view ≠ "grid" then [("view", st.view)] else [])

/-- Embeds findPublication of publication.js (lines 62 to 75): the featured
historic list is searched first, then the featured contemporary list, then the
base publications list; the first record whose id matches is returned as is,
together with its source tag, spread into a copy. -/
def findPublication (featuredHistoric featuredContemporary allPublications : List Pub)
    (pid : Int) : Option (Pub × String) :=
  match featuredHistoric.find? (fun p => p.id == pid) with
  | some pub => some (pub, "featured-historic")
  | none =>
    match featuredContemporary.find? (fun p => p.id == pid) with
    | some pub => some (pub, "featured-contemporary")
    | none =>
      match allPublications.find? (fun p => p.id == pid) with
      | some pub => some (pub, "main")
      | none => none

/-- Modelled from the spec: the fill-gaps-only merge the spec (section 6)
claims for featured records, preferring the featured record's fields and
falling back to the base record's fields per-field. No function in the source
implements this; it exists only to compare the claimed merge semantics with
what findPublication actually returns. -/
def mergeFillGaps (featured base : Pub) : Pub :=
  { id := featured.id,
    name := featured.name <|> base.name,
    city := featured.city <|> base.city,
    yearFounded := featured.yearFounded <|> base.yearFounded,
    yearCeased := featured.yearCeased <|> base.yearCeased,
    isActive := featured.isActive <|> base.isActive,
    decade := featured.decade <|> base.decade,
    medium := featured.medium <|> base.medium,
    primaryFocus := featured.primaryFocus <|> base.primaryFocus,
    missionStatement := featured.missionStatement <|> base.missionStatement,
    historicalNotes := featured.historicalNotes <|> base.historicalNotes,
    publishers := featured.publishers <|> base.publishers,
    tags := featured.tags <|> base.tags }

/-- A JS value that is either a string or an array of strings, the two shapes
the dataset uses for the publishers field (publication.js lines 224 to 236
handles both shapes explicitly). -/
inductive JsStrOrArr where
  | jstr (s : String)
  | jarr (l : List String)
  deriving DecidableEq, Repr

/-- The publication record in its dynamic shape, where publishers may be a
string or an array, as the data model declares. All other fields as in Pub. -/
structure PubD where
  id : Int
  name : Option String
  city : Option String
  yearFounded : Option Int
  yearCeased : Option Int
  isActive : Option Bool
  decade : Option String
  medium : Option String
  primaryFocus : Option String
  missionStatement : Option String
  historicalNotes : Option String
  publishers : Option JsStrOrArr
  tags : Option (List String)
  deriving DecidableEq, Repr

/-- Search predicate of archive.js applyFilters evaluated over the dynamic
record shape. The seven probes short-circuit left to right exactly as the or
chain in the source; the publishers probe calls toLowerCase on the field, and
when the field holds an array (a truthy object without that method) the call
raises a TypeError, modelled as an error result. -/
def archiveSearchMatchD (p : PubD) (query : String) : Except String Bool :=
  if optGuardIncludes p.name query then .ok true
  else if optGuardIncludes p.city query then .ok true
  else if optGuardIncludes p.missionStatement query then .ok true
  else if optGuardIncludes p.historicalNotes query then .ok true
  else if optGuardIncludes p.primaryFocus query then .ok true
  else
    let tagsProbe : Except String Bool :=
      .ok (match p.tags with
           | some ts => ts.any (fun t => strIncludes (jsToLower t) query)
           | none => false)
    match p.publishers with
    | some (.jarr _) => .error "TypeError: pub.publishers.toLowerCase is not a function"
    | some (.jstr s) =>
      if s = "" then tagsProbe
      else if strIncludes (jsToLower s) query then .ok true else tagsProbe
    | none => tagsProbe

/-- Filtering with a predicate that may raise: the first raised error aborts
the whole filter pass, as an exception thrown inside Array.prototype.filter
aborts applyFilters. -/
def filterExc (f : α → Except String Bool) : List α → Except String (List α)
  | [] => .ok []
  | a :: as => do
    let b ← f a
    let rest ← filterExc f as
    pure (if b then a :: rest else rest)

/-- Search stage of archive.js applyFilters over the dynamic record shape. -/
def archiveSearchStageD (pubs : List PubD) (search : String) : Except String (List PubD) :=
  if search ≠ "" then filterExc (fun p => archiveSearchMatchD p (jsToLower search)) pubs
  else .ok pubs

/-- Status stage of archive.js applyFilters over the dynamic record shape
(it touches only isActive and yearCeased, which are well-typed). -/
def archiveStatusStageD (pubs : List PubD) (status : String) : List PubD :=
  if status ≠ "all" then
    if status = "active" then
      pubs.filter (fun p => !(p.isActive == some false) && !(truthyNum p.yearCeased))
    else
      pubs.filter (fun p => (p.isActive == some false) || truthyNum p.yearCeased)
  else pubs

/-- Embeds sortPublications over the dynamic record shape (same switch as
sortPublications; the comparators touch only name, yearFounded and city). -/
def sortPublicationsD (sortKey : String) (l : List PubD) : List PubD :=
  if sortKey = "name" then
    l.insertionSort (fun a b => a.name.getD "" ≤ b.name.getD "")
  else if sortKey = "year-asc" then
    l.insertionSort (fun a b => jsOrNum a.yearFounded 9999 ≤ jsOrNum b.yearFounded 9999)
  else if sortKey = "year-desc" then
    l.insertionSort (fun a b => jsOrNum b.yearFounded 0 ≤ jsOrNum a.yearFounded 0)
  else if sortKey = "city" then
    l.insertionSort (fun a b => a.city.getD "" ≤ b.city.getD "")
  else
    l

/-- Embeds applyFilters of archive.js over the dynamic record shape: the
stages in source order, where a TypeError raised by the search stage aborts
the whole call. -/
def applyFiltersD (pubs : List PubD) (f : ArchiveFilters) (sortKey : String) :
    Except String (List PubD) := do
  let searched ← archiveSearchStageD pubs f.search
  let afterCity := if f.city ≠ "all" then searched.filter (fun p => p.city == some f.city) else searched
  let afterDecade := if f.decade ≠ "all" then afterCity.filter (fun p => p.decade == some f.decade) else afterCity
  pure (sortPublicationsD sortKey (archiveStatusStageD afterDecade f.status))

/-- The record of spec scenarios A and B: id 1, founded 1880, no yearCeased,
no stored isActive flag. -/
def scenarioRec : Pub := { emptyPub with id := 1, name := some "Afro-American", yearFounded := some 1880 }

/-- A record whose only text field is the name ab (no spaces). -/
def pubAB : Pub := { emptyPub with id := 2, name := some "ab" }

/-- A record matched through its name and through a tag. -/
def demoPub : Pub :=
  { emptyPub with id := 4, name := some "The Newark Press", city := some "Newark",
                  tags := some ["civil rights", "press"] }

/-- Base-list record for the lookup claims: it carries a city. -/
def basePub : Pub :=
  { emptyPub with id := 7, name := some "The Sentinel", city := some "Newark",
                  yearFounded := some 1890 }

/-- Featured record with the same id as basePub but without a city. -/
def featPub : Pub :=
  { emptyPub with id := 7, name := some "The Sentinel",
                  missionStatement := some "Uplift and truth." }

/-- Record founded 1875 and ceased 1920, from spec scenario C. -/
def pub1875 : Pub := { emptyPub with id := 10, name := some "Elder Journal", yearFounded := some 1875, yearCeased := some 1920 }

/-- Record with no yearFounded at all. -/
def pubNoYear : Pub := { emptyPub with id := 11, name := some "Undated Weekly" }

/-- Record founded 1920. -/
def pub1920 : Pub := { emptyPub with id := 12, name := some "Modern Item", yearFounded := some 1920 }

/-- Record founded 1890. -/
def pub1890 : Pub := { emptyPub with id := 13, name := some "Older Item", yearFounded := some 1890 }

/-- A three-record list used by pagination and sorting witnesses. -/
def demoPubs : List Pub := [pub1890, pub1920, pubNoYear]

/-- Dynamic-shape record whose publishers field is an array, the shape
publication.js line 225 explicitly accommodates. -/
def badPubD : PubD :=
  ⟨1, some "Array Pub", none, none, none, none, none, none, none, none, none,
   some (.jarr ["John Smith"]), none⟩

/-- C6: decoding the query string produced by encoding an archive state
reproduces every field of the state; fields at their default are omitted from
the encoding and decode back to the default. Proved for every state, which
includes every state reachable through the UI. -/
theorem c6_url_state_roundtrip (s : ArchiveState) : loadStateFromURL (updateURL s) = s := by
  obtain ⟨se, ci, de, st, so, vi⟩ := s
  simp only [updateURL]
  split_ifs <;>
    simp_all [loadStateFromURL, getParam, List.find?, defaultArchiveState]

/-- C7: the visible slice is the prefix of the first page times perPage
records, it grows with the page as a prefix, and hasMore holds exactly when
page times perPage is still short of the full filtered length. -/
theorem c7_pagination_prefix (r : List Pub) (p n : Nat) (hp : 1 ≤ p) :
    visibleSlice r p n = r.take (p * n)
    ∧ visibleSlice r p n <+: visibleSlice r (p + 1) n
    ∧ (hasMore r p n = true ↔ p * n < r.length) := by
  refine ⟨rfl, ?_, ?_⟩
  · have hle : p * n ≤ (p + 1) * n := Nat.mul_le_mul_right n (Nat.le_succ p)
    have htt : (visibleSlice r (p + 1) n).take (p * n) = visibleSlice r p n := by
      simp [visibleSlice, List.take_take, Nat.min_eq_left hle]
    rw [← htt]
    exact List.take_prefix _ _
  · simp only [hasMore, visibleSlice, List.length_take, decide_eq_true_eq]
    omega

theorem c7_pagination_prefix_witness :
    visibleSlice demoPubs 1 2 = demoPubs.take (1 * 2)
    ∧ visibleSlice demoPubs 1 2 <+: visibleSlice demoPubs (1 + 1) 2
    ∧ (hasMore demoPubs 1 2 = true ↔ 1 * 2 < demoPubs.length) :=
  c7_pagination_prefix demoPubs 1 2 (by decide)

/-- C9: any sort key outside the four recognized ones leaves the list
unchanged, with no error. -/
theorem c9_unknown_sort_key_noop (sortKey : String) (l : List Pub)
    (h : sortKey ∉ (["name", "year-asc", "year-desc", "city"] : List String)) :
    sortPublications sortKey l = l := by
  simp only [List.mem_cons, List.not_mem_nil, or_false, not_or] at h
  obtain ⟨h1, h2, h3, h4⟩ := h
  simp [sortPublications, h1, h2, h3, h4]

theorem c9_unknown_sort_key_noop_witness :
    sortPublications "bogus" demoPubs = demoPubs :=
  c9_unknown_sort_key_noop "bogus" demoPubs (by decide)

/-- Start bounds of the fixed windows, used for the active-versus-founded
comparison. -/
theorem decades_start_bounds : ∀ d ∈ decades, (1880 : Int) ≤ d.start ∧ d.start ≤ 2026 := by
  decide

/-- C5: aggregation produces, for each of the 15 fixed decade windows, an
activeCount counting the records whose defaulted lifespan overlaps the window
(yearFounded defaulting to 9999, yearCeased to 2026, with the JS falsy
defaulting of the source) and a foundedCount counting the records whose
yearFounded lies inside the window; a record founded 1875 and ceased 1920
counts toward the 1880s activeCount but not its foundedCount, and a record
with no yearFounded counts toward no window at all. -/
theorem c5_decade_aggregation (pubs : List Pub) :
    ((calculateDecadeData pubs).map (fun b => b.activeCount)
      = decades.map (fun d => pubs.countP (fun p =>
          decide (jsOrNum p.yearFounded 9999 ≤ d.endYear) && decide (d.start ≤ jsOrNum p.yearCeased 2026))))
    ∧ ((calculateDecadeData pubs).map (fun b => b.foundedCount)
      = decades.map (fun d => pubs.countP (fun p =>
          match p.yearFounded with
          | some y => decide (d.start ≤ y) && decide (y ≤ d.endYear)
          | none => false)))
    ∧ ((calculateDecadeData [pub1875]).map (fun b => (b.label, b.activeCount, b.foundedCount))
      = [("1880s", 1, 0), ("1890s", 1, 0), ("1900s", 1, 0), ("1910s", 1, 0), ("1920s", 1, 0),
         ("1930s", 0, 0), ("1940s", 0, 0), ("1950s", 0, 0), ("1960s", 0, 0), ("1970s", 0, 0),
         ("1980s", 0, 0), ("1990s", 0, 0), ("2000s", 0, 0), ("2010s", 0, 0), ("2020s", 0, 0)])
    ∧ ((calculateDecadeData [pubNoYear]).map (fun b => (b.activeCount, b.foundedCount))
      = List.replicate 15 ((0 : Nat), (0 : Nat))) := by
  refine ⟨?_, ?_, by decide, by decide⟩
  · simp only [calculateDecadeData, List.map_map]
    refine List.map_congr_left (fun d _ => ?_)
    simp [decadeActive, List.countP_eq_length_filter]
  · simp only [calculateDecadeData, List.map_map]
    refine List.map_congr_left (fun d _ => ?_)
    simp [decadeFounded, List.countP_eq_length_filter]

/-- C10: when every record carrying both years has yearCeased at least
yearFounded, every decade bucket has activeCount at least foundedCount. -/
theorem c10_active_ge_founded (pubs : List Pub)
    (h : pubs.all (fun p =>
          match p.yearFounded, p.yearCeased with
          | some f, some c => decide (f ≤ c)
          | _, _ => true) = true) :
    ((calculateDecadeData pubs).all (fun b => decide (b.foundedCount ≤ b.activeCount))) = true := by
  rw [List.all_eq_true] at h ⊢
  intro b hb
  simp only [calculateDecadeData, List.mem_map] at hb
  obtain ⟨d, hd, rfl⟩ := hb
  simp only [decide_eq_true_eq]
  rw [← List.countP_eq_length_filter, ← List.countP_eq_length_filter]
  refine List.countP_mono_left (fun p hp hfp => ?_)
  obtain ⟨hs1880, hs2026⟩ := decades_start_bounds d hd
  cases hyf : p.yearFounded with
  | none => rw [decadeFounded, hyf] at hfp; exact absurd hfp (by simp)
  | some y =>
    rw [decadeFounded, hyf, Bool.and_eq_true, decide_eq_true_eq, decide_eq_true_eq] at hfp
    obtain ⟨hys, hye⟩ := hfp
    have hy0 : y ≠ 0 := by omega
    rw [decadeActive, Bool.and_eq_true, decide_eq_true_eq, decide_eq_true_eq]
    constructor
    · rw [hyf]
      show (if y = 0 then (9999 : Int) else y) ≤ d.endYear
      rw [if_neg hy0]
      exact hye
    · cases hyc : p.yearCeased with
      | none => exact hs2026
      | some c =>
        have hfc := h p hp
        rw [hyf, hyc] at hfc
        simp only [decide_eq_true_eq] at hfc
        show d.start ≤ if c = 0 then (2026 : Int) else c
        by_cases hc0 : c = 0
        · rw [if_pos hc0]; omega
        · rw [if_neg hc0]; omega

theorem c10_active_ge_founded_witness :
    ((calculateDecadeData [pub1875]).all (fun b => decide (b.foundedCount ≤ b.activeCount))) = true :=
  c10_active_ge_founded [pub1875] (by decide)

/-- C8: year-asc sorts ascending by yearFounded with a missing year keyed by
the sentinel 9999 and year-desc sorts descending with a missing year keyed by
0; under the realistic bound that stored founding years lie strictly between
0 and 9999 (which is what makes the sentinels mean missing-last), the records
without a year end up after every dated record in both orders; the records
with years 1920, none and 1890 sort to 1890, 1920, none under year-asc and
1920, 1890, none under year-desc. -/
theorem c8_year_sort (l : List Pub) :
    (sortPublications "year-asc" l).Perm l
    ∧ List.Pairwise (fun a b => jsOrNum a.yearFounded 9999 ≤ jsOrNum b.yearFounded 9999)
        (sortPublications "year-asc" l)
    ∧ (sortPublications "year-desc" l).Perm l
    ∧ List.Pairwise (fun a b => jsOrNum b.yearFounded 0 ≤ jsOrNum a.yearFounded 0)
        (sortPublications "year-desc" l)
    ∧ (l.all (fun p => match p.yearFounded with
                       | some y => decide (0 < y) && decide (y < 9999)
                       | none => true) = true →
        List.Pairwise (fun a b : Pub => a.yearFounded = none → b.yearFounded = none)
            (sortPublications "year-asc" l)
        ∧ List.Pairwise (fun a b : Pub => a.yearFounded = none → b.yearFounded = none)
            (sortPublications "year-desc" l))
    ∧ sortPublications "year-asc" [pub1920, pubNoYear, pub1890] = [pub1890, pub1920, pubNoYear]
    ∧ sortPublications "year-desc" [pub1920, pubNoYear, pub1890] = [pub1920, pub1890, pubNoYear] := by
  haveI instTotA : IsTotal Pub (fun a b : Pub => yearAscKey a ≤ yearAscKey b) :=
    ⟨fun a b => le_total _ _⟩
  haveI instTransA : IsTrans Pub (fun a b : Pub => yearAscKey a ≤ yearAscKey b) :=
    ⟨fun _ _ _ hab hbc => le_trans hab hbc⟩
  haveI instTotD : IsTotal Pub (fun a b : Pub => yearDescKey b ≤ yearDescKey a) :=
    ⟨fun a b => le_total _ _⟩
  haveI instTransD : IsTrans Pub (fun a b : Pub => yearDescKey b ≤ yearDescKey a) :=
    ⟨fun _ _ _ hab hbc => le_trans hbc hab⟩
  have hasc : sortPublications "year-asc" l
      = l.insertionSort (fun a b => yearAscKey a ≤ yearAscKey b) := by
    simp [sortPublications]
  have hdesc : sortPublications "year-desc" l
      = l.insertionSort (fun a b => yearDescKey b ≤ yearDescKey a) := by
    simp [sortPublications]
  have hpermA : (sortPublications "year-asc" l).Perm l := by
    rw [hasc]; exact List.perm_insertionSort _ l
  have hpwA : List.Pairwise (fun a b : Pub => yearAscKey a ≤ yearAscKey b)
      (sortPublications "year-asc" l) := by
    rw [hasc]; exact List.sorted_insertionSort _ l
  have hpermD : (sortPublications "year-desc" l).Perm l := by
    rw [hdesc]; exact List.perm_insertionSort _ l
  have hpwD : List.Pairwise (fun a b : Pub => yearDescKey b ≤ yearDescKey a)
      (sortPublications "year-desc" l) := by
    rw [hdesc]; exact List.sorted_insertionSort _ l
  refine ⟨hpermA, hpwA, hpermD, hpwD, ?_, by decide, by decide⟩
  intro hbound
  rw [List.all_eq_true] at hbound
  constructor
  · refine hpwA.imp_of_mem ?_
    intro a b _ hb hab hanone
    cases hyb : b.yearFounded with
    | none => rfl
    | some y =>
      exfalso
      have hby := hbound b (hpermA.subset hb)
      rw [hyb] at hby
      simp only [Bool.and_eq_true, decide_eq_true_eq] at hby
      have hka : yearAscKey a = 9999 := by simp [yearAscKey, jsOrNum, hanone]
      have hkb : yearAscKey b = y := by
        have hy0 : y ≠ 0 := by omega
        simp [yearAscKey, jsOrNum, hyb, hy0]
      rw [hka, hkb] at hab
      omega
  · refine hpwD.imp_of_mem ?_
    intro a b _ hb hab hanone
    cases hyb : b.yearFounded with
    | none => rfl
    | some y =>
      exfalso
      have hby := hbound b (hpermD.subset hb)
      rw [hyb] at hby
      simp only [Bool.and_eq_true, decide_eq_true_eq] at hby
      have hka : yearDescKey a = 0 := by simp [yearDescKey, jsOrNum, hanone]
      have hkb : yearDescKey b = y := by
        have hy0 : y ≠ 0 := by omega
        simp [yearDescKey, jsOrNum, hyb, hy0]
      rw [hka, hkb] at hab
      omega

theorem c8_year_sort_witness :
    List.Pairwise (fun a b : Pub => a.yearFounded = none → b.yearFounded = none)
        (sortPublications "year-asc" demoPubs)
    ∧ List.Pairwise (fun a b : Pub => a.yearFounded = none → b.yearFounded = none)
        (sortPublications "year-desc" demoPubs) :=
  (c8_year_sort demoPubs).2.2.2.2.1 (by decide)

/-- C1 (amended): on the archive page, where the status predicate of the spec
lives, filtering with status active keeps exactly the records with
isActive not stored as false and a JS-falsy yearCeased (absent, or the
degenerate 0, excluded here by hypothesis), archived keeps exactly the
complement, and all excludes nothing; the home page applyFilters instead
compares the stored isActive flag with strict equality, so active keeps
exactly isActive true and archived exactly isActive false. On the concrete
scenario record (founded 1880, no yearCeased, no stored isActive) both
engines return the empty list for status archived. -/
theorem c1_status_filter (pubs : List Pub) (k : String)
    (hz : ∀ p ∈ pubs, p.yearCeased ≠ some 0) :
    (Archive.applyFilters pubs ⟨"", "all", "all", "active"⟩ k
      = sortPublications k (pubs.filter (fun p => !(p.isActive == some false) && p.yearCeased == none)))
    ∧ (Archive.applyFilters pubs ⟨"", "all", "all", "archived"⟩ k
      = sortPublications k (pubs.filter (fun p => !(!(p.isActive == some false) && p.yearCeased == none))))
    ∧ Archive.applyFilters pubs ⟨"", "all", "all", "all"⟩ k = sortPublications k pubs
    ∧ (App.applyFilters pubs ⟨"", "all", "all", "active", "all"⟩ k
      = sortPublications k (pubs.filter (fun p => p.isActive == some true)))
    ∧ (App.applyFilters pubs ⟨"", "all", "all", "archived", "all"⟩ k
      = sortPublications k (pubs.filter (fun p => p.isActive == some false)))
    ∧ Archive.applyFilters [scenarioRec] ⟨"", "all", "all", "archived"⟩ "name" = []
    ∧ App.applyFilters [scenarioRec] ⟨"", "all", "all", "archived", "all"⟩ "name" = [] := by
  refine ⟨?_, ?_, rfl, rfl, rfl, by decide, by decide⟩
  · show sortPublications k (pubs.filter (fun p => !(p.isActive == some false) && !(truthyNum p.yearCeased)))
      = sortPublications k (pubs.filter (fun p => !(p.isActive == some false) && p.yearCeased == none))
    refine congrArg (sortPublications k) (List.filter_congr (fun p hp => ?_))
    have hzp := hz p hp
    cases hyc : p.yearCeased with
    | none => rfl
    | some v =>
      have hv : v ≠ 0 := fun h => hzp (by rw [hyc, h])
      simp [truthyNum, hv]
  · show sortPublications k (pubs.filter (fun p => (p.isActive == some false) || truthyNum p.yearCeased))
      = sortPublications k (pubs.filter (fun p => !(!(p.isActive == some false) && p.yearCeased == none)))
    refine congrArg (sortPublications k) (List.filter_congr (fun p hp => ?_))
    have hzp := hz p hp
    cases hyc : p.yearCeased with
    | none => cases hia : (p.isActive == some false) <;> simp [truthyNum]
    | some v =>
      have hv : v ≠ 0 := fun h => hzp (by rw [hyc, h])
      cases hia : (p.isActive == some false) <;> simp [truthyNum, hv]

theorem c1_status_filter_witness :
    (Archive.applyFilters [scenarioRec] ⟨"", "all", "all", "active"⟩ "name"
      = sortPublications "name" ([scenarioRec].filter (fun p => !(p.isActive == some false) && p.yearCeased == none)))
    ∧ (Archive.applyFilters [scenarioRec] ⟨"", "all", "all", "archived"⟩ "name"
      = sortPublications "name" ([scenarioRec].filter (fun p => !(!(p.isActive == some false) && p.yearCeased == none))))
    ∧ Archive.applyFilters [scenarioRec] ⟨"", "all", "all", "all"⟩ "name" = sortPublications "name" [scenarioRec]
    ∧ (App.applyFilters [scenarioRec] ⟨"", "all", "all", "active", "all"⟩ "name"
      = sortPublications "name" ([scenarioRec].filter (fun p => p.isActive == some true)))
    ∧ (App.applyFilters [scenarioRec] ⟨"", "all", "all", "archived", "all"⟩ "name"
      = sortPublications "name" ([scenarioRec].filter (fun p => p.isActive == some false)))
    ∧ Archive.applyFilters [scenarioRec] ⟨"", "all", "all", "archived"⟩ "name" = []
    ∧ App.applyFilters [scenarioRec] ⟨"", "all", "all", "archived", "all"⟩ "name" = [] :=
  c1_status_filter [scenarioRec] "name" (by decide)

/-- C1 counterexample to the claim as stated: the scenario record satisfies
the claimed active predicate (isActive not false, yearCeased absent), yet the
home page applyFilters with status active returns the empty list rather than
the record, because app.js compares the stored flag with strict equality. -/
theorem c1_claim_counterexample :
    App.applyFilters [scenarioRec] ⟨"", "all", "all", "active", "all"⟩ "name" = []
    ∧ (!(scenarioRec.isActive == some false) && scenarioRec.yearCeased == none) = true
    ∧ ([] : List Pub) ≠ [scenarioRec] := by
  refine ⟨by decide, by decide, by decide⟩

/-- C3 (amended): the detail-page lookup returns the first matching featured
record unchanged, tagged with its source, searching featured historic, then
featured contemporary, then the base list; no per-field merge with the base
record takes place. -/
theorem c3_lookup_returns_featured (fh fc base : List Pub) (pid : Int) :
    (∀ p, fh.find? (fun x => x.id == pid) = some p →
      findPublication fh fc base pid = some (p, "featured-historic"))
    ∧ (fh.find? (fun x => x.id == pid) = none →
       ∀ p, fc.find? (fun x => x.id == pid) = some p →
         findPublication fh fc base pid = some (p, "featured-contemporary"))
    ∧ (fh.find? (fun x => x.id == pid) = none →
       fc.find? (fun x => x.id == pid) = none →
         findPublication fh fc base pid
           = (base.find? (fun x => x.id == pid)).map (fun p => (p, "main"))) := by
  refine ⟨?_, ?_, ?_⟩
  · intro p hp
    rw [findPublication, hp]
  · intro h0 p hp
    rw [findPublication, h0, hp]
  · intro h0 h1
    rw [findPublication, h0, h1]
    cases hb : base.find? (fun x => x.id == pid) <;> simp

theorem c3_lookup_returns_featured_witness :
    findPublication [featPub] [] [basePub] 7 = some (featPub, "featured-historic") :=
  (c3_lookup_returns_featured [featPub] [] [basePub] 7).1 featPub (by decide)

/-- C3 counterexample to the claim as stated: the base record for id 7 has a
city, the featured record for id 7 has none, and the lookup returns the
featured record with no city, while the fill-gaps merge described by the spec
would have kept the base record's city. -/
theorem c3_claim_counterexample :
    findPublication [featPub] [] [basePub] 7 = some (featPub, "featured-historic")
    ∧ basePub.city = some "Newark"
    ∧ featPub.city = none
    ∧ (mergeFillGaps featPub basePub).city = some "Newark"
    ∧ (findPublication [featPub] [] [basePub] 7).map (fun r => r.1.city) ≠ some (some "Newark") := by
  refine ⟨by decide, by decide, by decide, by decide, by decide⟩

/-- The query occurs case-insensitively inside the string: the character list
of the lower-cased string decomposes around the query's characters. -/
def SubstrOf (q s : String) : Prop := ∃ l r, (jsToLower s).data = l ++ (q.data ++ r)

/-- The field is present and its value contains the query. -/
def OptHas (o : Option String) (q : String) : Prop := ∃ s, o = some s ∧ SubstrOf q s

/-- The search predicate as the claim states it: the query occurs in one of
the seven searched fields, absent fields skipped, tags element-wise. -/
def FieldMatches (p : Pub) (q : String) : Prop :=
  OptHas p.name q ∨ OptHas p.city q ∨ OptHas p.missionStatement q ∨
  OptHas p.historicalNotes q ∨ OptHas p.primaryFocus q ∨ OptHas p.publishers q ∨
  (∃ ts, p.tags = some ts ∧ ∃ t ∈ ts, SubstrOf q t)

theorem string_ne_empty_data {q : String} (hq : q ≠ "") : q.data ≠ [] := by
  intro h
  exact hq (String.ext (by rw [h]))

theorem jsToLower_ne_empty {q : String} (hq : q ≠ "") : jsToLower q ≠ "" := by
  intro h
  apply string_ne_empty_data hq
  have hd := congrArg String.data h
  simpa [jsToLower] using hd

theorem optGuardIncludes_iff (o : Option String) (q : String) (hq : q ≠ "") :
    optGuardIncludes o q = true ↔ OptHas o q := by
  cases o with
  | none => simp [optGuardIncludes, OptHas]
  | some s =>
    by_cases hs : s = ""
    · subst hs
      have hlhs : optGuardIncludes (some "") q = false := rfl
      rw [hlhs]
      constructor
      · intro h; exact absurd h (by decide)
      · rintro ⟨t, ht, hsub⟩
        exfalso
        injection ht with ht'
        subst ht'
        obtain ⟨l, r, hlr⟩ := hsub
        have hempty : (jsToLower "").data = [] := rfl
        rw [hempty] at hlr
        have h1 := List.append_eq_nil.mp hlr.symm
        have h2 := List.append_eq_nil.mp h1.2
        exact string_ne_empty_data hq h2.1
    · simp only [optGuardIncludes, if_neg hs, OptHas, Option.some.injEq]
      rw [strIncludes_iff]
      constructor
      · rintro ⟨l, r, h⟩; exact ⟨s, rfl, l, r, h⟩
      · rintro ⟨t, rfl, l, r, h⟩; exact ⟨l, r, h⟩

theorem archiveSearchMatch_iff (p : Pub) (q : String) (hq : q ≠ "") :
    archiveSearchMatch p q = true ↔ FieldMatches p q := by
  have htags : (match p.tags with
                | some ts => ts.any (fun t => strIncludes (jsToLower t) q)
                | none => false) = true
      ↔ (∃ ts, p.tags = some ts ∧ ∃ t ∈ ts, SubstrOf q t) := by
    cases htg : p.tags with
    | none => simp
    | some ts => simp [List.any_eq_true, SubstrOf, strIncludes_iff]
  rw [archiveSearchMatch, FieldMatches]
  simp only [Bool.or_eq_true, optGuardIncludes_iff _ _ hq, htags]
  tauto

/-- C2 (amended): an empty stored query leaves both engines filtering
nothing; a non-empty query on the archive page applyFilters is lower-cased
once more (not trimmed) and keeps exactly the records in which it occurs in
one of name, city, missionStatement, historicalNotes, primaryFocus,
publishers or some tag, compared case-insensitively; the home page
applyFilters uses the stored query as is and probes only name, city,
primaryFocus, missionStatement and publishers. Trimming happens in the input
handlers before the query is stored, so a whitespace-only query can reach
applyFilters only through the URL and then filters literally. -/
theorem c2_search_filter (pubs : List Pub) (q k : String) :
    (q = "" → Archive.applyFilters pubs ⟨q, "all", "all", "all"⟩ k = sortPublications k pubs)
    ∧ (q ≠ "" → Archive.applyFilters pubs ⟨q, "all", "all", "all"⟩ k
        = sortPublications k (pubs.filter (fun p => archiveSearchMatch p (jsToLower q))))
    ∧ (q ≠ "" → ∀ p : Pub,
        archiveSearchMatch p (jsToLower q) = true ↔ FieldMatches p (jsToLower q))
    ∧ (q = "" → App.applyFilters pubs ⟨q, "all", "all", "all", "all"⟩ k = sortPublications k pubs)
    ∧ (q ≠ "" → App.applyFilters pubs ⟨q, "all", "all", "all", "all"⟩ k
        = sortPublications k (pubs.filter (fun p => appSearchMatch p q))) := by
  refine ⟨?_, ?_, ?_, ?_, ?_⟩
  · rintro rfl; rfl
  · intro hq
    simp [Archive.applyFilters, archiveSearchStage, cityStage, decadeStage, archiveStatusStage, hq]
  · intro hq p
    exact archiveSearchMatch_iff p (jsToLower q) (jsToLower_ne_empty hq)
  · rintro rfl; rfl
  · intro hq
    simp [App.applyFilters, appSearchStage, cityStage, decadeStage, appStatusStage, appFormatStage, hq]

theorem c2_search_filter_witness :
    (Archive.applyFilters [demoPub] ⟨"Press", "all", "all", "all"⟩ "bogus"
      = sortPublications "bogus" ([demoPub].filter (fun p => archiveSearchMatch p (jsToLower "Press"))))
    ∧ (archiveSearchMatch demoPub (jsToLower "Press") = true ↔ FieldMatches demoPub (jsToLower "Press"))
    ∧ (App.applyFilters [demoPub] ⟨"press", "all", "all", "all", "all"⟩ "bogus"
      = sortPublications "bogus" ([demoPub].filter (fun p => appSearchMatch p "press"))) :=
  ⟨(c2_search_filter [demoPub] "Press" "bogus").2.1 (by decide),
   (c2_search_filter [demoPub] "Press" "bogus").2.2.1 (by decide) demoPub,
   (c2_search_filter [demoPub] "press" "bogus").2.2.2.2 (by decide)⟩

/-- C2 counterexample to the claim as stated: a whitespace-only query is
claimed to keep every record, but the archive applyFilters treats the
non-empty string as a live query (it lower-cases but never trims) and drops a
record whose fields contain no space. -/
theorem c2_claim_counterexample :
    Archive.applyFilters [pubAB] ⟨" ", "all", "all", "all"⟩ "name" = []
    ∧ ([] : List Pub) ≠ [pubAB] := by
  refine ⟨by decide, by decide⟩

/-- C4: the engine is not total over the declared record model. A record
whose publishers field is an array (a shape publication.js itself handles)
makes the archive search stage call toLowerCase on the array, raising a
TypeError that aborts applyFilters. -/
theorem c4_publishers_array_typeerror :
    applyFiltersD [badPubD] ⟨"smith", "all", "all", "all"⟩ "name"
      = Except.error "TypeError: pub.publishers.toLowerCase is not a function" := rfl
